import Mathlib

/-!
Shallow embedding of the donut-screensaver simulation core (Go sources:
the multi-donut variant with timer overlay, plus the bounce logic shared
with main.go).  Go float64 arithmetic is idealised as real arithmetic;
Go int is embedded as Int; the process-wide random generator is embedded
as an injected stream of reals, one entry consumed per rand.Float64 call
(8 calls per spawned donut, in source order: angle, distance, vx, vy,
vx sign flip, vy sign flip, rotation speed, initial rotation).
-/

namespace Donuts

noncomputable section

/-- Entity state, from the Go struct Donut. -/
structure Donut where
  x : ℝ
  y : ℝ
  vx : ℝ
  vy : ℝ
  rotation : ℝ
  rotationSpeed : ℝ

/-- Configuration constant maxDonuts = 50. -/
def maxDonuts : ℕ := 50

/-- Configuration constant minDonuts = 1. -/
def minDonuts : ℕ := 1

/-- Configuration constant initialDonuts = 6. -/
def initialDonuts : ℕ := 6

/-- Simulation-relevant fields of the Go struct Game (the image handle is
render-only and omitted). -/
structure Game where
  donutWidth : ℝ
  donutHeight : ℝ
  donuts : List Donut
  screenWidth : ℤ
  screenHeight : ℤ
  numDonuts : ℕ

/-- One integrator step on a single donut, from the per-donut body of
Game.Update: move by velocity, advance rotation, then bounce off each
screen edge independently (negate the velocity component and clamp the
position exactly to the violated bound). -/
def updateDonut (screenWidth screenHeight donutWidth donutHeight : ℝ)
    (d : Donut) : Donut :=
  let x := d.x + d.vx
  let y := d.y + d.vy
  let rotation := d.rotation + d.rotationSpeed
  let xv : ℝ × ℝ :=
    if x ≤ 0 ∨ x ≥ screenWidth - donutWidth then
      (if x ≤ 0 then 0 else screenWidth - donutWidth, -d.vx)
    else (x, d.vx)
  let yv : ℝ × ℝ :=
    if y ≤ 0 ∨ y ≥ screenHeight - donutHeight then
      (if y ≤ 0 then 0 else screenHeight - donutHeight, -d.vy)
    else (y, d.vy)
  { x := xv.1, y := yv.1, vx := xv.2, vy := yv.2,
    rotation := rotation, rotationSpeed := d.rotationSpeed }

/-- Collision predicate areDonutsColliding: Euclidean distance between the
two centers is strictly below the sum of the radii. -/
def areDonutsColliding (x1 y1 x2 y2 radius : ℝ) : Prop :=
  let dx := x2 - x1
  let dy := y2 - y1
  let distance := Real.sqrt (dx * dx + dy * dy)
  distance < radius * 2

/-- resolveCollision: positional correction along the collision normal
followed by an equal-mass elastic impulse (skipped when the bodies are
already separating).  A zero center distance is replaced by the canonical
axis (1, 0) with distance 1 before normalising.  Returns the updated pair
(donut1, donut2). -/
def resolveCollision (donutWidth : ℝ) (donut1 donut2 : Donut)
    (center1X center1Y center2X center2Y : ℝ) : Donut × Donut :=
  let dx := center2X - center1X
  let dy := center2Y - center1Y
  let distance := Real.sqrt (dx * dx + dy * dy)
  let dx := if distance = 0 then 1 else dx
  let dy := if distance = 0 then 0 else dy
  let distance := if distance = 0 then 1 else distance
  let nx := dx / distance
  let ny := dy / distance
  let radius := donutWidth / 2
  let overlap := radius * 2 - distance
  let separationX := nx * overlap * 0.5
  let separationY := ny * overlap * 0.5
  let d1 : Donut := { donut1 with x := donut1.x - separationX, y := donut1.y - separationY }
  let d2 : Donut := { donut2 with x := donut2.x + separationX, y := donut2.y + separationY }
  let dvx := d2.vx - d1.vx
  let dvy := d2.vy - d1.vy
  let dvn := dvx * nx + dvy * ny
  if dvn > 0 then (d1, d2)
  else
    let impulse := 2 * dvn / 2
    ({ d1 with vx := d1.vx + impulse * nx, vy := d1.vy + impulse * ny },
     { d2 with vx := d2.vx - impulse * nx, vy := d2.vy - impulse * ny })

/-- The index pairs (i, j) with i < j < n, in the order the nested loops of
handleDonutCollisions visit them (i ascending, then j ascending). -/
def pairIndices (n : ℕ) : List (ℕ × ℕ) :=
  (List.range n).flatMap fun i =>
    ((List.range n).filter fun j => i < j).map fun j => (i, j)

instance (x1 y1 x2 y2 radius : ℝ) : Decidable (areDonutsColliding x1 y1 x2 y2 radius) :=
  Classical.propDecidable _

/-- One iteration of the inner loop of handleDonutCollisions: read the two
donuts at the given indices, test the collision predicate on their centers,
and on collision write back the resolved pair. -/
def collideAt (donutWidth : ℝ) (donuts : List Donut) (ij : ℕ × ℕ) : List Donut :=
  match donuts[ij.1]?, donuts[ij.2]? with
  | some donut1, some donut2 =>
    let radius := donutWidth / 2
    let center1X := donut1.x + radius
    let center1Y := donut1.y + radius
    let center2X := donut2.x + radius
    let center2Y := donut2.y + radius
    if areDonutsColliding center1X center1Y center2X center2Y radius then
      let r := resolveCollision donutWidth donut1 donut2
        center1X center1Y center2X center2Y
      (donuts.set ij.1 r.1).set ij.2 r.2
    else donuts
  | _, _ => donuts

/-- handleDonutCollisions: single sequential pass over all unordered index
pairs, each pair seeing the updates made by earlier pairs. -/
def handleDonutCollisions (donutWidth : ℝ) (donuts : List Donut) : List Donut :=
  (pairIndices donuts.length).foldl (collideAt donutWidth) donuts

/-- One full physics tick of Game.Update (after input handling): integrate
and edge-bounce every donut, then run the pairwise collision pass. -/
def gameTick (g : Game) : Game :=
  let moved := g.donuts.map
    (updateDonut (g.screenWidth : ℝ) (g.screenHeight : ℝ) g.donutWidth g.donutHeight)
  { g with donuts := handleDonutCollisions g.donutWidth moved }

/-- The donut spawned at index i by the loop body of createDonuts, with the
random stream rng supplying the eight rand.Float64 results in call order. -/
def spawnDonut (screenWidth screenHeight : ℤ) (donutWidth donutHeight : ℝ)
    (rng : ℕ → ℝ) (i : ℕ) : Donut :=
  let centerX := (screenWidth : ℝ) / 2
  let centerY := (screenHeight : ℝ) / 2
  let spawnRadius := min (screenWidth : ℝ) (screenHeight : ℝ) * 0.25
  let angle := rng (8 * i) * 2 * Real.pi
  let distance := rng (8 * i + 1) * spawnRadius
  let x := centerX + Real.cos angle * distance - donutWidth / 2
  let y := centerY + Real.sin angle * distance - donutHeight / 2
  let x := if x < 0 then 0
    else if x > (screenWidth : ℝ) - donutWidth then (screenWidth : ℝ) - donutWidth
    else x
  let y := if y < 0 then 0
    else if y > (screenHeight : ℝ) - donutHeight then (screenHeight : ℝ) - donutHeight
    else y
  let vx := 1.5 + rng (8 * i + 2) * 3.0
  let vy := 1.5 + rng (8 * i + 3) * 3.0
  let vx := if rng (8 * i + 4) < 0.5 then -vx else vx
  let vy := if rng (8 * i + 5) < 0.5 then -vy else vy
  let rotationSpeed := 0.015 + rng (8 * i + 6) * 0.02
  let rotationSpeed := if i % 2 = 1 then -rotationSpeed else rotationSpeed
  { x := x, y := y, vx := vx, vy := vy,
    rotation := rng (8 * i + 7) * 2 * Real.pi, rotationSpeed := rotationSpeed }

/-- The intermediate position the createDonuts loop computes for donut i
before the bounds clamp: the sampled point on the spawn disk shifted by
half the body size. -/
def spawnPreClamp (screenWidth screenHeight : ℤ) (donutWidth donutHeight : ℝ)
    (rng : ℕ → ℝ) (i : ℕ) : ℝ × ℝ :=
  let centerX := (screenWidth : ℝ) / 2
  let centerY := (screenHeight : ℝ) / 2
  let spawnRadius := min (screenWidth : ℝ) (screenHeight : ℝ) * 0.25
  let angle := rng (8 * i) * 2 * Real.pi
  let distance := rng (8 * i + 1) * spawnRadius
  (centerX + Real.cos angle * distance - donutWidth / 2,
   centerY + Real.sin angle * distance - donutHeight / 2)

/-- createDonuts: spawn numDonuts donuts near the screen center. -/
def createDonuts (screenWidth screenHeight : ℤ) (donutWidth donutHeight : ℝ)
    (numDonuts : ℕ) (rng : ℕ → ℝ) : List Donut :=
  (List.range numDonuts).map (spawnDonut screenWidth screenHeight donutWidth donutHeight rng)

/-- The plus-key handler in Game.Update: below maxDonuts, bump the count and
respawn the whole collection at the new count; otherwise do nothing. -/
def incrementDonuts (rng : ℕ → ℝ) (g : Game) : Game :=
  if g.numDonuts < maxDonuts then
    { g with numDonuts := g.numDonuts + 1,
             donuts := createDonuts g.screenWidth g.screenHeight
               g.donutWidth g.donutHeight (g.numDonuts + 1) rng }
  else g

/-- The minus-key handler in Game.Update: above minDonuts, drop the count and
respawn the whole collection at the new count; otherwise do nothing. -/
def decrementDonuts (rng : ℕ → ℝ) (g : Game) : Game :=
  if g.numDonuts > minDonuts then
    { g with numDonuts := g.numDonuts - 1,
             donuts := createDonuts g.screenWidth g.screenHeight
               g.donutWidth g.donutHeight (g.numDonuts - 1) rng }
  else g

/-- Game.Layout: on a genuine dimension change, store the new dimensions and
respawn at the current count; otherwise leave the state untouched.  Returns
the updated state together with the echoed input dimensions. -/
def layout (rng : ℕ → ℝ) (g : Game) (outsideWidth outsideHeight : ℤ) :
    Game × ℤ × ℤ :=
  if g.screenWidth ≠ outsideWidth ∨ g.screenHeight ≠ outsideHeight then
    ({ g with screenWidth := outsideWidth, screenHeight := outsideHeight,
              donuts := createDonuts outsideWidth outsideHeight
                g.donutWidth g.donutHeight g.numDonuts rng },
     outsideWidth, outsideHeight)
  else (g, outsideWidth, outsideHeight)

/-- Zero-pad the decimal rendering of n to at least the given width, the
effect of the %0Nd format verbs used by drawTimer (all arguments reaching
them are nonnegative). -/
def padZero (width : ℕ) (n : ℤ) : String :=
  let s := toString n
  if s.length < width then String.mk (List.replicate (width - s.length) (Char.ofNat 48)) ++ s
  else s

/-- The text computed by drawTimer, with both instants given as nanosecond
counts (Go time.Duration is an integer nanosecond count).  Go truncates
elapsed.Seconds() toward zero; on the clamped, nonnegative elapsed value
that truncation coincides with integer division by 10^9. -/
def drawTimerText (nowNs startNs : ℤ) : String :=
  let elapsed := nowNs - startNs
  let elapsed := if elapsed < 0 then 0 else elapsed
  let totalSeconds := elapsed / 1000000000
  let hours := totalSeconds / 3600
  let minutes := totalSeconds % 3600 / 60
  let seconds := totalSeconds % 60
  padZero 3 hours ++ ":" ++ padZero 2 minutes ++ ":" ++ padZero 2 seconds

/-- Spec-side rendering for the timer claim: take the floor of the exact
elapsed-seconds value, clamp at zero, decompose into hours, minutes and
seconds, and format as HHH:MM:SS. -/
def specTimerDisplay (nowNs startNs : ℤ) : String :=
  let t : ℤ := max 0 ⌊((nowNs - startNs : ℤ) : ℚ) / (1000000000 : ℚ)⌋
  padZero 3 (t / 3600) ++ ":" ++ padZero 2 (t % 3600 / 60) ++ ":" ++ padZero 2 (t % 60)

/-! ### Helper lemmas -/

/-- A concrete state at the maximum donut count, used to instantiate
hypothesis-bearing theorems. -/
def sampleGameMax : Game :=
  { donutWidth := 32, donutHeight := 32, donuts := [], screenWidth := 800,
    screenHeight := 600, numDonuts := 50 }

/-- A concrete state at the minimum donut count. -/
def sampleGameMin : Game :=
  { donutWidth := 32, donutHeight := 32, donuts := [], screenWidth := 800,
    screenHeight := 600, numDonuts := 1 }

/-- A concrete state at an interior donut count. -/
def sampleGameMid : Game :=
  { donutWidth := 32, donutHeight := 32, donuts := [], screenWidth := 800,
    screenHeight := 600, numDonuts := 6 }

/-- A concrete two-donut state on a 100 by 100 screen with 20 by 20 bodies:
the first donut rests on the left edge, the second overlaps it from the
right. -/
def sampleGamePhys : Game :=
  { donutWidth := 20, donutHeight := 20,
    donuts := [⟨0, 40, 0, 0, 0, 0⟩, ⟨10, 40, 0, 0, 0, 0⟩],
    screenWidth := 100, screenHeight := 100, numDonuts := 2 }

/-- Closed form of updateDonut with the pair selection pushed into each field. -/
lemma updateDonut_eq (sw sh bw bh : ℝ) (d : Donut) :
    updateDonut sw sh bw bh d =
      { x := if d.x + d.vx ≤ 0 ∨ d.x + d.vx ≥ sw - bw then
               (if d.x + d.vx ≤ 0 then 0 else sw - bw)
             else d.x + d.vx,
        y := if d.y + d.vy ≤ 0 ∨ d.y + d.vy ≥ sh - bh then
               (if d.y + d.vy ≤ 0 then 0 else sh - bh)
             else d.y + d.vy,
        vx := if d.x + d.vx ≤ 0 ∨ d.x + d.vx ≥ sw - bw then -d.vx else d.vx,
        vy := if d.y + d.vy ≤ 0 ∨ d.y + d.vy ≥ sh - bh then -d.vy else d.vy,
        rotation := d.rotation + d.rotationSpeed,
        rotationSpeed := d.rotationSpeed } := by
  simp only [updateDonut]
  split_ifs <;> rfl

/-- The number of donuts createDonuts produces equals the requested count. -/
lemma createDonuts_length (sw sh : ℤ) (bw bh : ℝ) (n : ℕ) (rng : ℕ → ℝ) :
    (createDonuts sw sh bw bh n rng).length = n := by
  simp [createDonuts]

/-! ### Claim theorems -/

/-- C9: for every pair the collision resolver processes, the velocity update
conserves the vector sum of the two velocities exactly, and the positional
correction displaces the two positions by opposite amounts, so the sum of
the two positions is unchanged as well. -/
theorem resolveCollision_conserves_sums (w : ℝ) (donut1 donut2 : Donut)
    (c1x c1y c2x c2y : ℝ) :
    (resolveCollision w donut1 donut2 c1x c1y c2x c2y).1.vx +
      (resolveCollision w donut1 donut2 c1x c1y c2x c2y).2.vx = donut1.vx + donut2.vx ∧
    (resolveCollision w donut1 donut2 c1x c1y c2x c2y).1.vy +
      (resolveCollision w donut1 donut2 c1x c1y c2x c2y).2.vy = donut1.vy + donut2.vy ∧
    (resolveCollision w donut1 donut2 c1x c1y c2x c2y).1.x +
      (resolveCollision w donut1 donut2 c1x c1y c2x c2y).2.x = donut1.x + donut2.x ∧
    (resolveCollision w donut1 donut2 c1x c1y c2x c2y).1.y +
      (resolveCollision w donut1 donut2 c1x c1y c2x c2y).2.y = donut1.y + donut2.y := by
  simp only [resolveCollision]
  split_ifs <;> refine ⟨by ring, by ring, by ring, by ring⟩

/-- C5: an increment request at maxCount and a decrement request at minCount
leave the state unchanged; an in-range increment or decrement changes the
count by exactly one and replaces the collection by a fresh respawn whose
length is the new count. -/
theorem countAdjustment_spec (rng : ℕ → ℝ) (g : Game) :
    (g.numDonuts = maxDonuts → incrementDonuts rng g = g) ∧
    (g.numDonuts = minDonuts → decrementDonuts rng g = g) ∧
    (g.numDonuts < maxDonuts →
      (incrementDonuts rng g).numDonuts = g.numDonuts + 1 ∧
      (incrementDonuts rng g).donuts =
        createDonuts g.screenWidth g.screenHeight g.donutWidth g.donutHeight
          (g.numDonuts + 1) rng ∧
      ((incrementDonuts rng g).donuts).length = g.numDonuts + 1) ∧
    (minDonuts < g.numDonuts →
      (decrementDonuts rng g).numDonuts = g.numDonuts - 1 ∧
      (decrementDonuts rng g).donuts =
        createDonuts g.screenWidth g.screenHeight g.donutWidth g.donutHeight
          (g.numDonuts - 1) rng ∧
      ((decrementDonuts rng g).donuts).length = g.numDonuts - 1) := by
  refine ⟨fun h => ?_, fun h => ?_, fun h => ?_, fun h => ?_⟩
  · rw [incrementDonuts, if_neg (by omega)]
  · rw [decrementDonuts, if_neg (by omega)]
  · rw [incrementDonuts, if_pos h]
    exact ⟨rfl, rfl, createDonuts_length _ _ _ _ _ _⟩
  · rw [decrementDonuts, if_pos h]
    exact ⟨rfl, rfl, createDonuts_length _ _ _ _ _ _⟩

/-- C5 witness: concrete states at the maximum, the minimum and an interior
count, with every hypothesis of the theorem discharged. -/
theorem countAdjustment_spec_witness :
    sampleGameMid.numDonuts < maxDonuts ∧
    (incrementDonuts (fun _ => 0) sampleGameMid).numDonuts = sampleGameMid.numDonuts + 1 ∧
    minDonuts < sampleGameMid.numDonuts ∧
    (decrementDonuts (fun _ => 0) sampleGameMid).numDonuts = sampleGameMid.numDonuts - 1 ∧
    sampleGameMax.numDonuts = maxDonuts ∧
    incrementDonuts (fun _ => 0) sampleGameMax = sampleGameMax ∧
    sampleGameMin.numDonuts = minDonuts ∧
    decrementDonuts (fun _ => 0) sampleGameMin = sampleGameMin :=
  ⟨by decide, ((countAdjustment_spec (fun _ => 0) sampleGameMid).2.2.1 (by decide)).1,
   by decide, ((countAdjustment_spec (fun _ => 0) sampleGameMid).2.2.2 (by decide)).1,
   by decide, (countAdjustment_spec (fun _ => 0) sampleGameMax).1 (by decide),
   by decide, (countAdjustment_spec (fun _ => 0) sampleGameMin).2.1 (by decide)⟩

/-- C10: a layout call with the current dimensions is a complete no-op (no
respawn, state returned untouched) and echoes the input dimensions; a call
with genuinely different dimensions stores them and respawns at the current
count. -/
theorem layout_spec (rng : ℕ → ℝ) (g : Game) (ow oh : ℤ) :
    (g.screenWidth = ow ∧ g.screenHeight = oh → layout rng g ow oh = (g, ow, oh)) ∧
    (g.screenWidth ≠ ow ∨ g.screenHeight ≠ oh →
      layout rng g ow oh =
        ({ g with screenWidth := ow, screenHeight := oh,
                  donuts := createDonuts ow oh g.donutWidth g.donutHeight
                    g.numDonuts rng }, ow, oh) ∧
      (layout rng g ow oh).1.numDonuts = g.numDonuts ∧
      ((layout rng g ow oh).1.donuts).length = g.numDonuts) := by
  constructor
  · rintro ⟨h1, h2⟩
    rw [layout, if_neg (by push_neg; exact ⟨h1, h2⟩)]
  · intro h
    rw [layout, if_pos h]
    exact ⟨rfl, rfl, createDonuts_length _ _ _ _ _ _⟩

/-- C10 witness: a same-dimension layout call on a concrete state is a
no-op, and a genuine resize respawns at the current count. -/
theorem layout_spec_witness :
    layout (fun _ => 0) sampleGameMid 800 600 = (sampleGameMid, 800, 600) ∧
    ((layout (fun _ => 0) sampleGameMid 1024 768).1.donuts).length =
      sampleGameMid.numDonuts :=
  ⟨(layout_spec (fun _ => 0) sampleGameMid 800 600).1 ⟨rfl, rfl⟩,
   ((layout_spec (fun _ => 0) sampleGameMid 1024 768).2 (Or.inl (by decide))).2.2⟩


/-- C7: an entity at x = 0 with vx = -2 ticks to x = 0, vx = 2; in general,
whenever the post-move coordinate reaches or crosses a bound on an axis,
the velocity component on that axis is negated and the coordinate is
clamped exactly to the violated bound, each axis independently, with the
penetration depth discarded; otherwise the axis is left at its post-move
value. -/
theorem updateDonut_edge_reflection (sw sh bw bh : ℝ) (d : Donut) :
    (d.x = 0 → d.vx = -2 →
      (updateDonut sw sh bw bh d).x = 0 ∧ (updateDonut sw sh bw bh d).vx = 2) ∧
    (d.x + d.vx ≤ 0 →
      (updateDonut sw sh bw bh d).x = 0 ∧ (updateDonut sw sh bw bh d).vx = -d.vx) ∧
    (0 < d.x + d.vx → d.x + d.vx ≥ sw - bw →
      (updateDonut sw sh bw bh d).x = sw - bw ∧
      (updateDonut sw sh bw bh d).vx = -d.vx) ∧
    (0 < d.x + d.vx → d.x + d.vx < sw - bw →
      (updateDonut sw sh bw bh d).x = d.x + d.vx ∧
      (updateDonut sw sh bw bh d).vx = d.vx) ∧
    (d.y + d.vy ≤ 0 →
      (updateDonut sw sh bw bh d).y = 0 ∧ (updateDonut sw sh bw bh d).vy = -d.vy) ∧
    (0 < d.y + d.vy → d.y + d.vy ≥ sh - bh →
      (updateDonut sw sh bw bh d).y = sh - bh ∧
      (updateDonut sw sh bw bh d).vy = -d.vy) ∧
    (0 < d.y + d.vy → d.y + d.vy < sh - bh →
      (updateDonut sw sh bw bh d).y = d.y + d.vy ∧
      (updateDonut sw sh bw bh d).vy = d.vy) := by
  simp only [updateDonut_eq]
  refine ⟨fun h1 h2 => ?_, fun h => ?_, fun h0 h => ?_, fun h0 h => ?_,
    fun h => ?_, fun h0 h => ?_, fun h0 h => ?_⟩
  · rw [h1, h2]
    norm_num
  · rw [if_pos (Or.inl h), if_pos h, if_pos (Or.inl h)]
    exact ⟨rfl, rfl⟩
  · rw [if_pos (Or.inr h), if_neg (not_le.mpr h0), if_pos (Or.inr h)]
    exact ⟨rfl, rfl⟩
  · rw [if_neg (by push_neg; exact ⟨h0, h⟩), if_neg (by push_neg; exact ⟨h0, h⟩)]
    exact ⟨rfl, rfl⟩
  · rw [if_pos (Or.inl h), if_pos h, if_pos (Or.inl h)]
    exact ⟨rfl, rfl⟩
  · rw [if_pos (Or.inr h), if_neg (not_le.mpr h0), if_pos (Or.inr h)]
    exact ⟨rfl, rfl⟩
  · rw [if_neg (by push_neg; exact ⟨h0, h⟩), if_neg (by push_neg; exact ⟨h0, h⟩)]
    exact ⟨rfl, rfl⟩

/-- C7 witness: the spec's concrete reflection instance, a high-edge hit and
a low-edge hit on the y axis, in a 100 by 100 screen with a 20 by 20 body. -/
theorem updateDonut_edge_reflection_witness :
    (updateDonut 100 100 20 20 ⟨0, 5, -2, 1, 0, 0⟩).x = 0 ∧
    (updateDonut 100 100 20 20 ⟨0, 5, -2, 1, 0, 0⟩).vx = 2 ∧
    (updateDonut 100 100 20 20 ⟨79, 5, 2, 0, 0, 0⟩).x = 80 ∧
    (updateDonut 100 100 20 20 ⟨79, 5, 2, 0, 0, 0⟩).vx = -2 ∧
    (updateDonut 100 100 20 20 ⟨10, 0, 2, -3, 0, 0⟩).y = 0 ∧
    (updateDonut 100 100 20 20 ⟨10, 0, 2, -3, 0, 0⟩).vy = 3 := by
  have h1 := (updateDonut_edge_reflection 100 100 20 20 ⟨0, 5, -2, 1, 0, 0⟩).1 rfl rfl
  have h3 := (updateDonut_edge_reflection 100 100 20 20 ⟨79, 5, 2, 0, 0, 0⟩).2.2.1
    (by norm_num) (by norm_num)
  have h5 := (updateDonut_edge_reflection 100 100 20 20 ⟨10, 0, 2, -3, 0, 0⟩).2.2.2.2.1
    (by norm_num)
  refine ⟨h1.1, h1.2, ?_, ?_, h5.1, ?_⟩
  · rw [h3.1]; norm_num
  · rw [h3.2]
  · rw [h5.2]; norm_num

/-- C3: the collision predicate holds iff the squared center distance is
strictly below the square of the radius sum (the sqrt-free form of
Euclidean distance < 2 * radius); centers exactly 2 * radius - 0.01 apart
are colliding and centers exactly 2 * radius + 0.01 apart are not. -/
theorem areDonutsColliding_spec (x1 y1 x2 y2 radius : ℝ) (hr : 0 < radius) :
    (areDonutsColliding x1 y1 x2 y2 radius ↔
      (x2 - x1) * (x2 - x1) + (y2 - y1) * (y2 - y1) < (radius * 2) * (radius * 2)) ∧
    (0.005 ≤ radius →
      (x2 - x1) * (x2 - x1) + (y2 - y1) * (y2 - y1) =
        (radius * 2 - 0.01) * (radius * 2 - 0.01) →
      areDonutsColliding x1 y1 x2 y2 radius) ∧
    ((x2 - x1) * (x2 - x1) + (y2 - y1) * (y2 - y1) =
        (radius * 2 + 0.01) * (radius * 2 + 0.01) →
      ¬ areDonutsColliding x1 y1 x2 y2 radius) := by
  refine ⟨?_, fun h5 heq => ?_, fun heq => ?_⟩
  · simp only [areDonutsColliding]
    rw [Real.sqrt_lt' (by linarith), pow_two]
  · simp only [areDonutsColliding]
    rw [heq, Real.sqrt_mul_self (by linarith)]
    linarith
  · simp only [areDonutsColliding]
    rw [heq, Real.sqrt_mul_self (by linarith)]
    exact not_lt.mpr (by linarith)

/-- C3 witness: radius 1, centers 1.99 apart collide and 2.01 apart do not. -/
theorem areDonutsColliding_spec_witness :
    (0 : ℝ) < 1 ∧ areDonutsColliding 0 0 1.99 0 1 ∧ ¬ areDonutsColliding 0 0 2.01 0 1 :=
  ⟨by norm_num,
   (areDonutsColliding_spec 0 0 1.99 0 1 (by norm_num)).2.1 (by norm_num) (by norm_num),
   (areDonutsColliding_spec 0 0 2.01 0 1 (by norm_num)).2.2 (by norm_num)⟩

/-- C2: for a colliding pair whose centers share the y coordinate with the
first strictly to the left, velocities vx1 = +2, vx2 = -2 resolve to
vx1 = -2, vx2 = +2 with the y velocities untouched, while the separating
assignment vx1 = -2, vx2 = +2 leaves all velocities unchanged and still
applies the positional correction along the x axis. -/
theorem resolveCollision_headOn (w : ℝ) (a b : Donut) (c1x cy c2x : ℝ)
    (hx : c1x < c2x) (hcol : areDonutsColliding c1x cy c2x cy (w / 2)) :
    (a.vx = 2 → b.vx = -2 →
      (resolveCollision w a b c1x cy c2x cy).1.vx = -2 ∧
      (resolveCollision w a b c1x cy c2x cy).2.vx = 2 ∧
      (resolveCollision w a b c1x cy c2x cy).1.vy = a.vy ∧
      (resolveCollision w a b c1x cy c2x cy).2.vy = b.vy) ∧
    (a.vx = -2 → b.vx = 2 →
      (resolveCollision w a b c1x cy c2x cy).1.vx = a.vx ∧
      (resolveCollision w a b c1x cy c2x cy).2.vx = b.vx ∧
      (resolveCollision w a b c1x cy c2x cy).1.vy = a.vy ∧
      (resolveCollision w a b c1x cy c2x cy).2.vy = b.vy ∧
      (resolveCollision w a b c1x cy c2x cy).1.x =
        a.x - (w / 2 * 2 - (c2x - c1x)) * 0.5 ∧
      (resolveCollision w a b c1x cy c2x cy).2.x =
        b.x + (w / 2 * 2 - (c2x - c1x)) * 0.5 ∧
      (resolveCollision w a b c1x cy c2x cy).1.y = a.y ∧
      (resolveCollision w a b c1x cy c2x cy).2.y = b.y) := by
  have hdx : 0 < c2x - c1x := by linarith
  have hne : c2x - c1x ≠ 0 := hdx.ne'
  have hd : Real.sqrt ((c2x - c1x) * (c2x - c1x) + (cy - cy) * (cy - cy)) = c2x - c1x := by
    have h0 : (c2x - c1x) * (c2x - c1x) + (cy - cy) * (cy - cy) =
        (c2x - c1x) * (c2x - c1x) := by ring
    rw [h0, Real.sqrt_mul_self hdx.le]
  have hd2 : Real.sqrt ((c2x - c1x) * (c2x - c1x)) = c2x - c1x :=
    Real.sqrt_mul_self hdx.le
  constructor
  · intro ha hb
    simp only [resolveCollision, hd, hd2, if_neg hne, sub_self, zero_div,
      div_self hne, ha, hb, mul_zero, mul_one, add_zero]
    norm_num
  · intro ha hb
    simp only [resolveCollision, hd, hd2, if_neg hne, sub_self, zero_div,
      div_self hne, ha, hb, mul_zero, mul_one, add_zero, one_mul]
    norm_num

/-- C2 witness: body width 20 (radius 10), centers 15 apart on the x axis,
approaching pair fully reverses, separating pair keeps its velocities. -/
theorem resolveCollision_headOn_witness :
    (10 : ℝ) < 25 ∧ areDonutsColliding 10 10 25 10 ((20 : ℝ) / 2) ∧
    (resolveCollision 20 ⟨0, 0, 2, 0, 0, 0⟩ ⟨15, 0, -2, 0, 0, 0⟩ 10 10 25 10).1.vx = -2 ∧
    (resolveCollision 20 ⟨0, 0, 2, 0, 0, 0⟩ ⟨15, 0, -2, 0, 0, 0⟩ 10 10 25 10).2.vx = 2 ∧
    (resolveCollision 20 ⟨0, 0, -2, 0, 0, 0⟩ ⟨15, 0, 2, 0, 0, 0⟩ 10 10 25 10).1.vx = -2 ∧
    (resolveCollision 20 ⟨0, 0, -2, 0, 0, 0⟩ ⟨15, 0, 2, 0, 0, 0⟩ 10 10 25 10).2.vx = 2 := by
  have hcol : areDonutsColliding 10 10 25 10 ((20 : ℝ) / 2) := by
    simp only [areDonutsColliding]
    rw [show ((25 : ℝ) - 10) * (25 - 10) + (10 - 10) * (10 - 10) = 15 * 15 by norm_num,
      Real.sqrt_mul_self (by norm_num : (0 : ℝ) ≤ 15)]
    norm_num
  have hA := (resolveCollision_headOn 20 ⟨0, 0, 2, 0, 0, 0⟩ ⟨15, 0, -2, 0, 0, 0⟩
    10 10 25 (by norm_num) hcol).1 rfl rfl
  have hB := (resolveCollision_headOn 20 ⟨0, 0, -2, 0, 0, 0⟩ ⟨15, 0, 2, 0, 0, 0⟩
    10 10 25 (by norm_num) hcol).2 rfl rfl
  exact ⟨by norm_num, hcol, hA.1, hA.2.1, hB.1, hB.2.1⟩

/-- C4 counterexample: coincident centers with body width 20.  The claim
computes overlap from the true center distance 0, predicting a push of
(2 * 10 - 0) * 0.5 = 10 on each body (donut1 to x = -5); the code computes
overlap from the substituted distance 1 and pushes by 9.5 (donut1 to
x = -4.5). -/
theorem resolveCollision_coincident_counterexample :
    (resolveCollision 20 ⟨5, 5, 0, 0, 0, 0⟩ ⟨5, 5, 0, 0, 0, 0⟩ 15 15 15 15).1.x = -4.5 ∧
    (resolveCollision 20 ⟨5, 5, 0, 0, 0, 0⟩ ⟨5, 5, 0, 0, 0, 0⟩ 15 15 15 15).2.x = 14.5 ∧
    (5 : ℝ) - (2 * (20 / 2) - 0) * 0.5 = -5 ∧
    (-4.5 : ℝ) ≠ -5 := by
  have h0 : Real.sqrt (((15 : ℝ) - 15) * (15 - 15) + ((15 : ℝ) - 15) * (15 - 15)) = 0 := by
    rw [show ((15 : ℝ) - 15) * (15 - 15) + ((15 : ℝ) - 15) * (15 - 15) = 0 by ring,
      Real.sqrt_zero]
  refine ⟨?_, ?_, by norm_num, by norm_num⟩ <;>
    · simp only [resolveCollision, h0]
      norm_num

/-- C4 amended: for exactly coincident centers the resolver substitutes the
canonical unit normal (1, 0) (total, no error), and the positional
correction pushes the bodies apart symmetrically along that axis — but by
(2 * bodyRadius - 1) * 0.5 each, because the substituted distance 1, not
the true center distance 0, enters the overlap. -/
theorem resolveCollision_coincident (w : ℝ) (a b : Donut) (cx cy : ℝ) :
    (resolveCollision w a b cx cy cx cy).1.x = a.x - (w / 2 * 2 - 1) * 0.5 ∧
    (resolveCollision w a b cx cy cx cy).1.y = a.y ∧
    (resolveCollision w a b cx cy cx cy).2.x = b.x + (w / 2 * 2 - 1) * 0.5 ∧
    (resolveCollision w a b cx cy cx cy).2.y = b.y := by
  have h0 : Real.sqrt ((cx - cx) * (cx - cx) + (cy - cy) * (cy - cy)) = 0 := by
    rw [show (cx - cx) * (cx - cx) + (cy - cy) * (cy - cy) = 0 by ring, Real.sqrt_zero]
  simp only [resolveCollision, h0, eq_self_iff_true, if_true, div_one, zero_div,
    one_mul, zero_mul, mul_zero, sub_zero, add_zero]
  split_ifs <;> exact ⟨by ring_nf, rfl, by ring_nf, rfl⟩

/-- The edge-bounce clamp lands in [0, bound] whenever 0 ≤ bound. -/
lemma bounce_bound (x bound : ℝ) (hb : 0 ≤ bound) :
    0 ≤ (if x ≤ 0 ∨ x ≥ bound then (if x ≤ 0 then 0 else bound) else x) ∧
    (if x ≤ 0 ∨ x ≥ bound then (if x ≤ 0 then 0 else bound) else x) ≤ bound := by
  split_ifs with h1 h2
  · exact ⟨le_refl 0, hb⟩
  · exact ⟨hb, le_refl bound⟩
  · push_neg at h1
    exact ⟨h1.1.le, h1.2.le⟩

/-- C1 amended: after the Integrator with edge-bounce over all entities,
every entity satisfies the boundary invariant (for any input positions);
the subsequent Collision Resolver can move entities back out of bounds,
as the counterexample shows. -/
theorem integrator_preserves_bounds (g : Game)
    (hw : g.donutWidth ≤ (g.screenWidth : ℝ))
    (hh : g.donutHeight ≤ (g.screenHeight : ℝ)) :
    ∀ d ∈ g.donuts.map (updateDonut (g.screenWidth : ℝ) (g.screenHeight : ℝ)
        g.donutWidth g.donutHeight),
      0 ≤ d.x ∧ d.x ≤ (g.screenWidth : ℝ) - g.donutWidth ∧
      0 ≤ d.y ∧ d.y ≤ (g.screenHeight : ℝ) - g.donutHeight := by
  intro d hd
  rw [List.mem_map] at hd
  obtain ⟨d0, hd0, rfl⟩ := hd
  rw [updateDonut_eq]
  have hbw : (0 : ℝ) ≤ (g.screenWidth : ℝ) - g.donutWidth := sub_nonneg.mpr hw
  have hbh : (0 : ℝ) ≤ (g.screenHeight : ℝ) - g.donutHeight := sub_nonneg.mpr hh
  exact ⟨(bounce_bound _ _ hbw).1, (bounce_bound _ _ hbw).2,
    (bounce_bound _ _ hbh).1, (bounce_bound _ _ hbh).2⟩

/-- C1 amended witness: in the two-donut state on the 100 by 100 screen, the
integrated first donut satisfies the bounds. -/
theorem integrator_preserves_bounds_witness :
    0 ≤ (updateDonut (sampleGamePhys.screenWidth : ℝ) (sampleGamePhys.screenHeight : ℝ)
        sampleGamePhys.donutWidth sampleGamePhys.donutHeight ⟨0, 40, 0, 0, 0, 0⟩).x ∧
    (updateDonut (sampleGamePhys.screenWidth : ℝ) (sampleGamePhys.screenHeight : ℝ)
        sampleGamePhys.donutWidth sampleGamePhys.donutHeight ⟨0, 40, 0, 0, 0, 0⟩).x ≤
      (sampleGamePhys.screenWidth : ℝ) - sampleGamePhys.donutWidth := by
  have h := integrator_preserves_bounds sampleGamePhys (by norm_num [sampleGamePhys])
    (by norm_num [sampleGamePhys])
  have hm := h _ (List.mem_map.mpr ⟨⟨0, 40, 0, 0, 0, 0⟩, by simp [sampleGamePhys], rfl⟩)
  exact ⟨hm.1, hm.2.1⟩

/-- C1 counterexample: both donuts of sampleGamePhys start inside the
bounds of its 100 by 100 screen (20 by 20 bodies, so x and y range over
[0, 80]), yet after one full tick — integrator with edge-bounce, then the
collision resolver — the first donut sits at x = -5, outside the bounds:
the resolver's positional correction pushes it past the left edge. -/
theorem gameTick_out_of_bounds_counterexample :
    sampleGamePhys.donutWidth ≤ (sampleGamePhys.screenWidth : ℝ) ∧
    sampleGamePhys.donutHeight ≤ (sampleGamePhys.screenHeight : ℝ) ∧
    (∀ d ∈ sampleGamePhys.donuts,
      0 ≤ d.x ∧ d.x ≤ (sampleGamePhys.screenWidth : ℝ) - sampleGamePhys.donutWidth ∧
      0 ≤ d.y ∧ d.y ≤ (sampleGamePhys.screenHeight : ℝ) - sampleGamePhys.donutHeight) ∧
    (gameTick sampleGamePhys).donuts.map Donut.x = [-5, 15] ∧
    ¬ (∀ d ∈ (gameTick sampleGamePhys).donuts,
        0 ≤ d.x ∧ d.x ≤ (sampleGamePhys.screenWidth : ℝ) - sampleGamePhys.donutWidth ∧
        0 ≤ d.y ∧ d.y ≤ (sampleGamePhys.screenHeight : ℝ) - sampleGamePhys.donutHeight) := by
  have hs : Real.sqrt 100 = 10 := by
    rw [show (100 : ℝ) = 10 * 10 by norm_num, Real.sqrt_mul_self (by norm_num)]
  have hp : pairIndices 2 = [(0, 1)] := rfl
  have hmap : (gameTick sampleGamePhys).donuts.map Donut.x = [-5, 15] := by
    norm_num [gameTick, sampleGamePhys, updateDonut, handleDonutCollisions, hp,
      collideAt, areDonutsColliding, resolveCollision, hs]
  refine ⟨by norm_num [sampleGamePhys], by norm_num [sampleGamePhys], ?_, hmap, ?_⟩
  · intro d hd
    simp only [sampleGamePhys, List.mem_cons, List.not_mem_nil, or_false] at hd
    rcases hd with h | h <;> subst h <;> norm_num [sampleGamePhys]
  · intro hall
    have hmem : (-5 : ℝ) ∈ (gameTick sampleGamePhys).donuts.map Donut.x := by
      rw [hmap]
      exact List.mem_cons_self _ _
    obtain ⟨d, hd, hdx⟩ := List.mem_map.mp hmem
    have h0 := (hall d hd).1
    rw [hdx] at h0
    linarith

/-- The spawn clamp lands in [0, hi] whenever 0 ≤ hi. -/
lemma clamp_bound (p hi : ℝ) (h : 0 ≤ hi) :
    0 ≤ (if p < 0 then 0 else if p > hi then hi else p) ∧
    (if p < 0 then 0 else if p > hi then hi else p) ≤ hi := by
  split_ifs with h1 h2
  · exact ⟨le_refl 0, h⟩
  · exact ⟨h, le_refl hi⟩
  · push_neg at h1 h2
    exact ⟨h1, h2⟩

/-- C6 counterexample: screen 100 by 100, body 100 by 0, random stream
constantly 0 (all hypotheses of the spawner claim hold).  The single donut
spawns pre-clamp at position (0, 50), and the clamp leaves it there; that
position is at Euclidean distance 50 from the screen center (50, 50),
which is not within spawnRadius = 0.25 * min(100, 100) = 25.  (The body's
center, position + (bodyWidth/2, bodyHeight/2) = (50, 50), is what stays
within the spawn radius.) -/
theorem spawn_preclamp_position_counterexample :
    createDonuts 100 100 100 0 1 (fun _ => 0) =
      [spawnDonut 100 100 100 0 (fun _ => 0) 0] ∧
    (spawnDonut 100 100 100 0 (fun _ => 0) 0).x = 0 ∧
    (spawnDonut 100 100 100 0 (fun _ => 0) 0).y = 50 ∧
    (spawnPreClamp 100 100 100 0 (fun _ => 0) 0).1 = 0 ∧
    (spawnPreClamp 100 100 100 0 (fun _ => 0) 0).2 = 50 ∧
    Real.sqrt (((0 : ℝ) - 100 / 2) * (0 - 100 / 2) +
      ((50 : ℝ) - 100 / 2) * (50 - 100 / 2)) = 50 ∧
    ¬ ((50 : ℝ) ≤ min (100 : ℝ) 100 * 0.25) := by
  refine ⟨?_, ?_, ?_, ?_, ?_, ?_, ?_⟩
  · simp [createDonuts, List.range_succ]
  · norm_num [spawnDonut, Real.cos_zero, Real.sin_zero]
  · norm_num [spawnDonut, Real.cos_zero, Real.sin_zero]
  · norm_num [spawnPreClamp, Real.cos_zero, Real.sin_zero]
  · norm_num [spawnPreClamp, Real.cos_zero, Real.sin_zero]
  · rw [show ((0 : ℝ) - 100 / 2) * (0 - 100 / 2) +
        ((50 : ℝ) - 100 / 2) * (50 - 100 / 2) = 50 * 50 by norm_num,
      Real.sqrt_mul_self (by norm_num)]
  · norm_num

/-- C6 amended: createDonuts produces exactly the requested count; the
sampled point of each donut — its pre-clamp position offset by half the
body size, i.e. the body center — lies within spawnRadius of the screen
center; the stored position is the clamp of the pre-clamp position; and
every produced position lies within [0, screenWidth - bodyWidth] by
[0, screenHeight - bodyHeight]. -/
theorem createDonuts_spec (sw sh : ℤ) (bw bh : ℝ) (n : ℕ) (rng : ℕ → ℝ)
    (hrng : ∀ k, 0 ≤ rng k ∧ rng k < 1)
    (hbw : 0 ≤ bw) (hbh : 0 ≤ bh)
    (hw : bw ≤ (sw : ℝ)) (hh : bh ≤ (sh : ℝ)) :
    (createDonuts sw sh bw bh n rng).length = n ∧
    (∀ i, Real.sqrt
        (((spawnPreClamp sw sh bw bh rng i).1 + bw / 2 - (sw : ℝ) / 2) *
          ((spawnPreClamp sw sh bw bh rng i).1 + bw / 2 - (sw : ℝ) / 2) +
         ((spawnPreClamp sw sh bw bh rng i).2 + bh / 2 - (sh : ℝ) / 2) *
          ((spawnPreClamp sw sh bw bh rng i).2 + bh / 2 - (sh : ℝ) / 2)) ≤
      min (sw : ℝ) (sh : ℝ) * 0.25) ∧
    (∀ i, (spawnDonut sw sh bw bh rng i).x =
        (if (spawnPreClamp sw sh bw bh rng i).1 < 0 then 0
         else if (spawnPreClamp sw sh bw bh rng i).1 > (sw : ℝ) - bw then (sw : ℝ) - bw
         else (spawnPreClamp sw sh bw bh rng i).1) ∧
      (spawnDonut sw sh bw bh rng i).y =
        (if (spawnPreClamp sw sh bw bh rng i).2 < 0 then 0
         else if (spawnPreClamp sw sh bw bh rng i).2 > (sh : ℝ) - bh then (sh : ℝ) - bh
         else (spawnPreClamp sw sh bw bh rng i).2)) ∧
    (∀ d ∈ createDonuts sw sh bw bh n rng,
      0 ≤ d.x ∧ d.x ≤ (sw : ℝ) - bw ∧ 0 ≤ d.y ∧ d.y ≤ (sh : ℝ) - bh) := by
  have hsw : (0 : ℝ) ≤ (sw : ℝ) := le_trans hbw hw
  have hsh : (0 : ℝ) ≤ (sh : ℝ) := le_trans hbh hh
  have hR : (0 : ℝ) ≤ min (sw : ℝ) (sh : ℝ) * 0.25 :=
    mul_nonneg (le_min hsw hsh) (by norm_num)
  refine ⟨createDonuts_length _ _ _ _ _ _, fun i => ?_, fun i => ⟨rfl, rfl⟩, ?_⟩
  · have h1 : (spawnPreClamp sw sh bw bh rng i).1 + bw / 2 - (sw : ℝ) / 2 =
        Real.cos (rng (8 * i) * 2 * Real.pi) *
          (rng (8 * i + 1) * (min (sw : ℝ) (sh : ℝ) * 0.25)) := by
      simp only [spawnPreClamp]
      ring
    have h2 : (spawnPreClamp sw sh bw bh rng i).2 + bh / 2 - (sh : ℝ) / 2 =
        Real.sin (rng (8 * i) * 2 * Real.pi) *
          (rng (8 * i + 1) * (min (sw : ℝ) (sh : ℝ) * 0.25)) := by
      simp only [spawnPreClamp]
      ring
    rw [h1, h2]
    have ht0 : 0 ≤ rng (8 * i + 1) * (min (sw : ℝ) (sh : ℝ) * 0.25) :=
      mul_nonneg (hrng _).1 hR
    have harg : Real.cos (rng (8 * i) * 2 * Real.pi) *
          (rng (8 * i + 1) * (min (sw : ℝ) (sh : ℝ) * 0.25)) *
        (Real.cos (rng (8 * i) * 2 * Real.pi) *
          (rng (8 * i + 1) * (min (sw : ℝ) (sh : ℝ) * 0.25))) +
        Real.sin (rng (8 * i) * 2 * Real.pi) *
          (rng (8 * i + 1) * (min (sw : ℝ) (sh : ℝ) * 0.25)) *
        (Real.sin (rng (8 * i) * 2 * Real.pi) *
          (rng (8 * i + 1) * (min (sw : ℝ) (sh : ℝ) * 0.25))) =
        rng (8 * i + 1) * (min (sw : ℝ) (sh : ℝ) * 0.25) *
          (rng (8 * i + 1) * (min (sw : ℝ) (sh : ℝ) * 0.25)) := by
      have hcs := Real.cos_sq_add_sin_sq (rng (8 * i) * 2 * Real.pi)
      nlinarith [hcs]
    rw [harg, Real.sqrt_mul_self ht0]
    calc rng (8 * i + 1) * (min (sw : ℝ) (sh : ℝ) * 0.25) ≤
        1 * (min (sw : ℝ) (sh : ℝ) * 0.25) :=
          mul_le_mul_of_nonneg_right (hrng _).2.le hR
      _ = min (sw : ℝ) (sh : ℝ) * 0.25 := one_mul _
  · intro d hd
    obtain ⟨i, _, rfl⟩ := List.mem_map.mp hd
    have h01 : (0 : ℝ) ≤ (sw : ℝ) - bw := sub_nonneg.mpr hw
    have h02 : (0 : ℝ) ≤ (sh : ℝ) - bh := sub_nonneg.mpr hh
    exact ⟨(clamp_bound _ _ h01).1, (clamp_bound _ _ h01).2,
      (clamp_bound _ _ h02).1, (clamp_bound _ _ h02).2⟩

/-- C6 amended witness: a 100 by 100 screen with 20 by 20 bodies, count 3,
constant-zero random stream. -/
theorem createDonuts_spec_witness :
    (createDonuts 100 100 20 20 3 (fun _ => 0)).length = 3 ∧
    0 ≤ (spawnDonut 100 100 20 20 (fun _ => 0) 0).x ∧
    (spawnDonut 100 100 20 20 (fun _ => 0) 0).x ≤ ((100 : ℤ) : ℝ) - 20 := by
  have h := createDonuts_spec 100 100 20 20 3 (fun _ => 0)
    (fun _ => ⟨le_refl 0, by norm_num⟩) (by norm_num) (by norm_num)
    (by norm_num) (by norm_num)
  have hm := h.2.2.2 (spawnDonut 100 100 20 20 (fun _ => 0) 0)
    (List.mem_map.mpr ⟨0, by simp, rfl⟩)
  exact ⟨h.1, hm.1, hm.2.1⟩

/-- C8: the drawTimer text equals the spec-side rendering — the floor of the
exact elapsed seconds, clamped at zero, decomposed into hours, minutes and
seconds and formatted as HHH:MM:SS — and a reference timestamp in the
future renders exactly 000:00:00. -/
theorem drawTimer_spec (nowNs startNs : ℤ) :
    drawTimerText nowNs startNs = specTimerDisplay nowNs startNs ∧
    (nowNs < startNs → drawTimerText nowNs startNs = "000:00:00") := by
  have hfl : ⌊((nowNs - startNs : ℤ) : ℚ) / (1000000000 : ℚ)⌋ =
      (nowNs - startNs) / 1000000000 := by
    have h := Rat.floor_intCast_div_natCast (nowNs - startNs) 1000000000
    push_cast at h
    convert h using 2
    push_cast
    ring
  constructor
  · simp only [drawTimerText, specTimerDisplay, hfl]
    have he : (if nowNs - startNs < 0 then (0 : ℤ) else nowNs - startNs) / 1000000000 =
        max 0 ((nowNs - startNs) / 1000000000) := by
      split_ifs with h <;> omega
    rw [he]
  · intro h
    simp only [drawTimerText, if_pos (show nowNs - startNs < 0 by omega)]
    decide

/-- C8 witness: one hour, one minute, one second and five nanoseconds of
elapsed time, and a start timestamp in the future. -/
theorem drawTimer_spec_witness :
    drawTimerText 3661000000005 0 = specTimerDisplay 3661000000005 0 ∧
    drawTimerText 3661000000005 0 = "001:01:01" ∧
    drawTimerText (-5) 3 = "000:00:00" :=
  ⟨(drawTimer_spec 3661000000005 0).1, by decide,
   (drawTimer_spec (-5) 3).2 (by decide)⟩

end

end Donuts
